import Mathlib

/-!
# Verification of the fugue task/identity layer and the Spark execution-engine adapter

A shallow embedding of `src/fugue/workflow/_tasks.py`,
`src/fugue_spark/execution_engine.py` and `src/fugue_sql/parse.py`.
Python objects become Lean structures, mutation becomes functional record
update, Python exceptions become `Except`, and object identity (`id(x)`)
becomes an explicit `objId : Nat` threaded through an allocation counter.
-/

/-- Model of the Python values that flow into task hint fields (`_persist`
takes `None` or an arbitrary level value; we cover the shapes the code
distinguishes).  `pyStr` is Python's `str()` on these values. -/
inductive PyVal where
  | none
  | str (s : String)
  | bool (b : Bool)
  | int (n : Int)
deriving DecidableEq, Repr

/-- Python `str()` on a `PyVal`.  Note `str(None) = "None"`, so the values
`None` and the string `"None"` have the same `str` image. -/
def PyVal.pyStr : PyVal → String
  | .none => "None"
  | .str s => s
  | .bool true => "True"
  | .bool false => "False"
  | .int n => toString n

/-- Hashable content values fed to `triad.utils.hash.to_uuid`. -/
inductive UuidVal where
  | none
  | str (s : String)
  | bool (b : Bool)
  | nat (n : Nat)
  | list (xs : List UuidVal)

/-- Model of `triad.utils.hash.to_uuid`: a deterministic content hash of its
arguments.  We idealize the hash as collision-free, so it is modelled by the
injective serialization of the argument list itself. -/
def to_uuid (args : List UuidVal) : UuidVal := .list args

/-- The concrete Python exceptions raised by the embedded code. -/
inductive FugueError where
  | notImplementedError (msg : String)
  | fugueWorkflowError (msg : String)
  | invalidOperationError (msg : String)
  | valueError (msg : String)
deriving DecidableEq, Repr

/-- `adagio.specs.InputSpec("name", DataFrame, nullable=False)`: only the
name varies in `FugueTask.__init__`, the type and nullability are fixed. -/
structure InputSpec where
  name : String
deriving DecidableEq, Repr

/-- `adagio.specs.OutputSpec("name", DataFrame, nullable=False)`. -/
structure OutputSpec where
  name : String
deriving DecidableEq, Repr

/-- The state of a `FugueTask` (base class in `_tasks.py`).  `configs` and
`metadata` are kept as opaque hashable content; `node_spec` is the adagio
node spec, `UuidVal.none` until the task is wired into a workflow. -/
structure FugueTask where
  configs : UuidVal
  inputs : List InputSpec
  outputs : List OutputSpec
  metadata : UuidVal
  deterministic : Bool
  lazy : Bool
  node_spec : UuidVal
  _persist : PyVal
  _broadcast : Bool
  _checkpoint : Bool
  _checkpoint_namespace : Option String
  _input_has_key : Bool

/-- `FugueTask.__init__`: asserts `output_n <= 1`, builds the input specs
from `input_n` (named `_i` positionally, or from `input_names`), the output
specs `_i`, and initializes the post-processing hints to
`_persist = None`, `_broadcast = False`, `_checkpoint = False`,
`_checkpoint_namespace = None`.  The source indexes `input_names[i]`; the
model reads the list with a default, and is only applied where the list
covers `input_n`. -/
def FugueTask.init (input_n output_n : Nat) (configs params : UuidVal)
    (deterministic lazy : Bool) (input_names : Option (List String)) :
    Except FugueError FugueTask :=
  if output_n ≤ 1 then
    let inputs := match input_names with
      | Option.none =>
          (List.range input_n).map fun i => InputSpec.mk ("_" ++ toString i)
      | Option.some names =>
          (List.range input_n).map fun i => InputSpec.mk (names.getD i "")
    let outputs := (List.range output_n).map fun i => OutputSpec.mk ("_" ++ toString i)
    .ok { configs := configs
          inputs := inputs
          outputs := outputs
          metadata := params
          deterministic := deterministic
          lazy := lazy
          node_spec := UuidVal.none
          _persist := PyVal.none
          _broadcast := false
          _checkpoint := false
          _checkpoint_namespace := Option.none
          _input_has_key := input_names.isSome }
  else
    .error (.notImplementedError "Fugue doesn't support multiple output tasks")

/-- Encoding of the checkpoint namespace as hashed by `to_uuid`
(`None` or a string). -/
def encodeNamespace : Option String → UuidVal
  | Option.none => UuidVal.none
  | Option.some s => UuidVal.str s

/-- `FugueTask.__uuid__`: the content hash of configs, input/output specs,
metadata, determinism flag, laziness flag, node spec, `str(self._persist)`,
broadcast flag, checkpoint flag and checkpoint namespace. -/
def FugueTask.__uuid__ (t : FugueTask) : UuidVal :=
  to_uuid [t.configs,
    .list (t.inputs.map fun i => .str i.name),
    .list (t.outputs.map fun o => .str o.name),
    t.metadata,
    .bool t.deterministic,
    .bool t.lazy,
    t.node_spec,
    .str t._persist.pyStr,
    .bool t._broadcast,
    .bool t._checkpoint,
    encodeNamespace t._checkpoint_namespace]

/-- `FugueTask.checkpoint(namespace)`: sets `_checkpoint = True` and
`_checkpoint_namespace = None if namespace is None else str(namespace)`. -/
def FugueTask.checkpoint (t : FugueTask) (ns : Option PyVal) : FugueTask :=
  { t with _checkpoint := true
           _checkpoint_namespace := match ns with
             | Option.none => Option.none
             | Option.some v => Option.some v.pyStr }

/-- `FugueTask.persist(level)`: sets `_persist = "" if level is None else level`. -/
def FugueTask.persist (t : FugueTask) (level : PyVal) : FugueTask :=
  { t with _persist := if level = PyVal.none then PyVal.str "" else level }

/-- `FugueTask.broadcast()`: sets `_broadcast = True`. -/
def FugueTask.broadcast (t : FugueTask) : FugueTask :=
  { t with _broadcast := true }

/-- `FugueTask.copy`: unconditionally raises `InvalidOperationError`. -/
def FugueTask.copy (_t : FugueTask) : Except FugueError FugueTask :=
  .error (.invalidOperationError "can't copy")

/-- `FugueTask.__copy__` (the hook Python's `copy.copy` invokes):
unconditionally raises `InvalidOperationError`. -/
def FugueTask.__copy__ (_t : FugueTask) : Except FugueError FugueTask :=
  .error (.invalidOperationError "can't copy")

/-- `FugueTask.__deepcopy__` (the hook Python's `copy.deepcopy` invokes):
unconditionally raises `InvalidOperationError`. -/
def FugueTask.__deepcopy__ (_t : FugueTask) (_memo : UuidVal) :
    Except FugueError FugueTask :=
  .error (.invalidOperationError "can't copy")

/-- A fallback task value (used only to strip the `Except` wrapper on
sample constructions that are known to succeed). -/
def defaultTask : FugueTask :=
  { configs := UuidVal.none, inputs := [], outputs := [],
    metadata := UuidVal.none, deterministic := true, lazy := false,
    node_spec := UuidVal.none, _persist := PyVal.none, _broadcast := false,
    _checkpoint := false, _checkpoint_namespace := Option.none,
    _input_has_key := false }

/-- A sample constructed task (2 inputs, 1 output). -/
def sampleTask : FugueTask :=
  (FugueTask.init 2 1 (UuidVal.str "cfg") (UuidVal.str "p") true false
    Option.none).toOption.getD defaultTask

/-- A second sample task constructed with identical arguments. -/
def sampleTask2 : FugueTask :=
  (FugueTask.init 2 1 (UuidVal.str "cfg") (UuidVal.str "p") true false
    Option.none).toOption.getD defaultTask

/-! ## Task execution (`Create.execute`, `Process.execute`, `Output.execute`) -/

/-- Dataframe values as produced by task execution: inputs, the creator's
result, the processor's result on the gathered inputs, persisted/broadcasted
wrappers, and `ArrayDataFrame(rows, schema)`. -/
inductive DFv where
  | input (tag : Nat)
  | created
  | processed (byKey : Bool) (inputs : List DFv)
  | persisted (d : DFv)
  | broadcasted (d : DFv)
  | arrayDF (rows : List Unit) (schema : String)

/-- The observable steps taken by `execute` (engine lookup, extension
invocation, engine post-processing, result-cache store, output publish). -/
inductive ExecEvent where
  | getExecutionEngine
  | creatorCreate
  | processorProcess (byKey : Bool)
  | outputterProcess (byKey : Bool)
  | enginePersist (level : PyVal)
  | engineBroadcast
  | setResult (taskId : Nat)
  | setOutput (slot : String)

/-- The adagio `TaskContext` as used by `execute`: named inputs and the
output slots written through `ctx.outputs[...] = df`. -/
structure TaskContext where
  inputs : List (String × DFv)
  outputs : List (String × DFv)

/-- The per-run `FugueWorkflowContext` result cache written by
`_set_result(ctx, df)`, keyed by `id(self)`. -/
structure WorkflowCtx where
  results : List (Nat × DFv)

/-- `FugueTask.handle_persist(df, engine)`: returns `df` unchanged when
`_persist is None`, otherwise calls
`engine.persist(df, None if _persist == "" else _persist)`. -/
def FugueTask.handle_persist (t : FugueTask) (df : DFv) : DFv × List ExecEvent :=
  if t._persist = PyVal.none then (df, [])
  else (.persisted df,
    [.enginePersist (if t._persist = PyVal.str "" then PyVal.none else t._persist)])

/-- `FugueTask.handle_broadcast(df, engine)`: returns `df` unchanged when
`_broadcast` is unset, otherwise calls `engine.broadcast(df)`. -/
def FugueTask.handle_broadcast (t : FugueTask) (df : DFv) : DFv × List ExecEvent :=
  if t._broadcast then (.broadcasted df, [.engineBroadcast]) else (df, [])

/-- The `Create` task: base state plus the wrapped creator extension
(kept opaque; only its invocation matters here). -/
structure CreateTask where
  base : FugueTask
  creator : UuidVal

/-- The `Process` task: base state plus the wrapped processor extension. -/
structure ProcessTask where
  base : FugueTask
  processor : UuidVal

/-- The `Output` task: base state plus the wrapped outputter extension. -/
structure OutputTask where
  base : FugueTask
  outputter : UuidVal

/-- `Output.__init__`: asserts `input_n > 0` (raising
`FugueWorkflowError("must have at least one input")` otherwise) before
converting the outputter and calling the base constructor with
`output_n = 1`. -/
def Output.init (input_n : Nat) (outputter params _pre_partition : UuidVal)
    (deterministic lazy : Bool) (input_names : Option (List String)) :
    Except FugueError OutputTask :=
  if input_n > 0 then
    match FugueTask.init input_n 1 UuidVal.none params deterministic lazy input_names with
    | .ok base => .ok { base := base, outputter := outputter }
    | .error e => .error e
  else
    .error (.fugueWorkflowError "must have at least one input")

/-- `Create.execute(ctx)`: obtains the engine, invokes the creator, applies
`handle_persist` then `handle_broadcast`, stores the final dataframe via
`_set_result` (keyed by `id(self)`), and publishes it on slot `"_0"`.
Returns the updated task context, workflow context and the event trace. -/
def Create.execute (t : CreateTask) (taskId : Nat) (ctx : TaskContext)
    (wf : WorkflowCtx) : TaskContext × WorkflowCtx × List ExecEvent :=
  let df0 : DFv := .created
  let p := t.base.handle_persist df0
  let b := t.base.handle_broadcast p.1
  let df := b.1
  ({ ctx with outputs := ctx.outputs ++ [("_0", df)] },
   { wf with results := wf.results ++ [(taskId, df)] },
   [ExecEvent.getExecutionEngine, ExecEvent.creatorCreate] ++ p.2 ++ b.2 ++
     [ExecEvent.setResult taskId, ExecEvent.setOutput "_0"])

/-- `Process.execute(ctx)`: obtains the engine, gathers the inputs (keyed
iff `_input_has_key`), invokes the processor, applies `handle_persist` then
`handle_broadcast`, stores the final dataframe via `_set_result`, and
publishes it on slot `"_0"`. -/
def Process.execute (t : ProcessTask) (taskId : Nat) (ctx : TaskContext)
    (wf : WorkflowCtx) : TaskContext × WorkflowCtx × List ExecEvent :=
  let df0 : DFv := .processed t.base._input_has_key (ctx.inputs.map Prod.snd)
  let p := t.base.handle_persist df0
  let b := t.base.handle_broadcast p.1
  let df := b.1
  ({ ctx with outputs := ctx.outputs ++ [("_0", df)] },
   { wf with results := wf.results ++ [(taskId, df)] },
   [ExecEvent.getExecutionEngine,
     ExecEvent.processorProcess t.base._input_has_key] ++ p.2 ++ b.2 ++
     [ExecEvent.setResult taskId, ExecEvent.setOutput "_0"])

/-- `Output.execute(ctx)`: obtains the engine, invokes the outputter for its
side effect, then publishes the dummy `ArrayDataFrame([], "_0:int")` on slot
`"_0"`.  It does not call `handle_persist`, `handle_broadcast` or
`_set_result`. -/
def Output.execute (t : OutputTask) (_taskId : Nat) (ctx : TaskContext)
    (wf : WorkflowCtx) : TaskContext × WorkflowCtx × List ExecEvent :=
  ({ ctx with outputs := ctx.outputs ++ [("_0", DFv.arrayDF [] "_0:int")] },
   wf,
   [ExecEvent.getExecutionEngine,
     ExecEvent.outputterProcess t.base._input_has_key,
     ExecEvent.setOutput "_0"])

/-- A sample `Output` task (1 input) with both the persist hint and the
broadcast flag set. -/
def sampleOutputTask : OutputTask :=
  let o := (Output.init 1 (UuidVal.str "outputter") UuidVal.none UuidVal.none
    true false Option.none).toOption.getD { base := defaultTask, outputter := UuidVal.none }
  { o with base := (o.base.persist (PyVal.str "MEMORY_ONLY")).broadcast }

/-! ## SparkExecutionEngine: `to_df` identity, RunOnce memoization, persist -/

/-- A `SparkDataFrame` object; only its Python object identity matters for
the RunOnce memoization (`id(args[0])`). -/
structure SparkDF where
  objId : Nat
deriving DecidableEq, Repr

/-- An arbitrary dataframe handed to the engine: either already the
engine-native `SparkDataFrame`, or some other `DataFrame` implementation
(e.g. `ArrayDataFrame`), identified by its own object id. -/
inductive AnyDF where
  | spark (d : SparkDF)
  | other (objId : Nat)
deriving DecidableEq, Repr

/-- `pyspark.StorageLevel` values (the class attributes of `StorageLevel`
that populate `StorageLevel.__dict__`). -/
inductive StorageLevel where
  | DISK_ONLY
  | DISK_ONLY_2
  | MEMORY_ONLY
  | MEMORY_ONLY_2
  | MEMORY_AND_DISK
  | MEMORY_AND_DISK_2
  | OFF_HEAP
deriving DecidableEq, Repr

/-- The name → value entries of `StorageLevel.__dict__` consulted by
`SparkExecutionEngine._persist`. -/
def storageLevelDict : List (String × StorageLevel) :=
  [("DISK_ONLY", .DISK_ONLY), ("DISK_ONLY_2", .DISK_ONLY_2),
   ("MEMORY_ONLY", .MEMORY_ONLY), ("MEMORY_ONLY_2", .MEMORY_ONLY_2),
   ("MEMORY_AND_DISK", .MEMORY_AND_DISK), ("MEMORY_AND_DISK_2", .MEMORY_AND_DISK_2),
   ("OFF_HEAP", .OFF_HEAP)]

/-- The `level: Any` argument of `persist`: Python `None`, a
`StorageLevel` value, or a string. -/
inductive PersistLevel where
  | noLevel
  | level (l : StorageLevel)
  | str (s : String)
deriving DecidableEq, Repr

/-- The mutable state of a `SparkExecutionEngine` run: the allocation
counter for fresh Python objects, the three `RunOnce` caches (keyed by
`id` of the converted dataframe), invocation counters for the underlying
`_broadcast`/`_persist`/`_register`, and the log of arguments passed to the
backend `df.native.persist(...)` call. -/
structure EngineState where
  nextId : Nat
  broadcastCache : List (Nat × SparkDF)
  persistCache : List (Nat × SparkDF)
  registerCache : List (Nat × SparkDF)
  broadcastCalls : Nat
  persistCalls : Nat
  registerCalls : Nat
  nativePersistArgs : List (Option StorageLevel)
deriving DecidableEq, Repr

/-- Lookup in a `RunOnce` cache. -/
def lookupCache (c : List (Nat × SparkDF)) (k : Nat) : Option SparkDF :=
  match c.find? (fun p => p.1 = k) with
  | Option.some p => Option.some p.2
  | Option.none => Option.none

/-- `SparkExecutionEngine.to_df` restricted to what the memoized operations
observe: a `SparkDataFrame` input is returned itself (identity-preserving);
any other dataframe is converted, producing a fresh `SparkDataFrame`
object. -/
def SparkExecutionEngine.to_df (df : AnyDF) (s : EngineState) :
    SparkDF × EngineState :=
  match df with
  | .spark d => (d, s)
  | .other _ => (⟨s.nextId⟩, { s with nextId := s.nextId + 1 })

/-- `SparkExecutionEngine._broadcast`: wraps `broadcast(df.native)` in a new
`SparkDataFrame` object. -/
def SparkExecutionEngine._broadcast (_df : SparkDF) (s : EngineState) :
    SparkDF × EngineState :=
  (⟨s.nextId⟩,
   { s with nextId := s.nextId + 1, broadcastCalls := s.broadcastCalls + 1 })

/-- `SparkExecutionEngine._persist`: defaults `None` to
`StorageLevel.MEMORY_AND_DISK`, resolves a string through
`StorageLevel.__dict__`, and if the result is a `StorageLevel` calls
`df.native.persist()` — with no storage-level argument — and returns the
same dataframe; otherwise raises `ValueError`. -/
def SparkExecutionEngine._persist (df : SparkDF) (level : PersistLevel)
    (s : EngineState) : Except FugueError (SparkDF × EngineState) :=
  let level := if level = PersistLevel.noLevel
    then PersistLevel.level .MEMORY_AND_DISK else level
  let level : PersistLevel := match level with
    | .str name =>
        match storageLevelDict.find? (fun p : String × StorageLevel => p.1 = name) with
        | Option.some p => PersistLevel.level p.2
        | Option.none => PersistLevel.str name
    | l => l
  match level with
  | .level _ =>
      .ok (df, { s with persistCalls := s.persistCalls + 1,
                        nativePersistArgs := s.nativePersistArgs ++ [Option.none] })
  | _ => .error (.valueError "is not supported persist type")

/-- `SparkExecutionEngine._register`: calls
`df.native.createOrReplaceTempView(name)` and returns the same dataframe. -/
def SparkExecutionEngine._register (df : SparkDF) (_name : String)
    (s : EngineState) : SparkDF × EngineState :=
  (df, { s with registerCalls := s.registerCalls + 1 })

/-- `SparkExecutionEngine.broadcast`: `self._broadcast_func(self.to_df(df))`
where `_broadcast_func = RunOnce(self._broadcast, key = id(args[0]))`. -/
def SparkExecutionEngine.broadcast (df : AnyDF) (s : EngineState) :
    SparkDF × EngineState :=
  let c := SparkExecutionEngine.to_df df s
  match lookupCache c.2.broadcastCache c.1.objId with
  | Option.some r => (r, c.2)
  | Option.none =>
      let u := SparkExecutionEngine._broadcast c.1 c.2
      (u.1, { u.2 with broadcastCache := u.2.broadcastCache ++ [(c.1.objId, u.1)] })

/-- `SparkExecutionEngine.persist`:
`self._persist_func(self.to_df(df), level)` where
`_persist_func = RunOnce(self._persist, key = id(args[0]))` — the cache key
ignores `level`. -/
def SparkExecutionEngine.persist (df : AnyDF) (level : PersistLevel)
    (s : EngineState) : Except FugueError (SparkDF × EngineState) :=
  let c := SparkExecutionEngine.to_df df s
  match lookupCache c.2.persistCache c.1.objId with
  | Option.some r => .ok (r, c.2)
  | Option.none =>
      match SparkExecutionEngine._persist c.1 level c.2 with
      | .ok u =>
          .ok (u.1, { u.2 with persistCache := u.2.persistCache ++ [(c.1.objId, u.1)] })
      | .error e => .error e

/-- `SparkExecutionEngine.register`:
`self._register_func(self.to_df(df), name)` where
`_register_func = RunOnce(self._register, key = id(args[0]))` — the cache
key ignores `name`. -/
def SparkExecutionEngine.register (df : AnyDF) (name : String)
    (s : EngineState) : SparkDF × EngineState :=
  let c := SparkExecutionEngine.to_df df s
  match lookupCache c.2.registerCache c.1.objId with
  | Option.some r => (r, c.2)
  | Option.none =>
      let u := SparkExecutionEngine._register c.1 name c.2
      (u.1, { u.2 with registerCache := u.2.registerCache ++ [(c.1.objId, u.1)] })

/-- A fresh engine state (as set up by `SparkExecutionEngine.__init__`:
empty `RunOnce` caches, no backend invocations yet). -/
def initEngineState : EngineState :=
  { nextId := 100, broadcastCache := [], persistCache := [], registerCache := [],
    broadcastCalls := 0, persistCalls := 0, registerCalls := 0,
    nativePersistArgs := [] }

/-- Which `level` arguments `SparkExecutionEngine._persist` accepts:
`None`, any `StorageLevel` value, or a string naming an entry of
`StorageLevel.__dict__`. -/
def acceptedPersistLevel : PersistLevel → Bool
  | .noLevel => true
  | .level _ => true
  | .str s => (storageLevelDict.find? (fun p => p.1 = s)).isSome

/-! ## SparkExecutionEngine.join: kind normalization and validation -/

/-- Python `str.lower()` (character-wise; the join-kind strings are ASCII). -/
def pyLower (s : List Char) : List Char := s.map Char.toLower

/-- Python `str.replace(c, "")` for a one-character pattern: removing every
occurrence of the substring is removing every occurrence of the character. -/
def pyRemoveChar (s : List Char) (c : Char) : List Char :=
  s.filter (fun x => x ≠ c)

/-- The `_TO_SPARK_JOIN_MAP` allow-list from `execution_engine.py`. -/
def _TO_SPARK_JOIN_MAP : List (String × String) :=
  [("inner", "inner"), ("leftouter", "left_outer"), ("rightouter", "right_outer"),
   ("fullouter", "outer"), ("cross", "cross"), ("semi", "left_semi"),
   ("anti", "left_anti"), ("leftsemi", "left_semi"), ("leftanti", "left_anti")]

/-- The normalization in `join`:
`how.lower().replace("_", "").replace(" ", "")`. -/
def normalizeHow (how : String) : String :=
  String.mk (pyRemoveChar (pyRemoveChar (pyLower how.toList) '_') ' ')

/-- The join-kind resolution in `SparkExecutionEngine.join`: normalize,
check membership in `_TO_SPARK_JOIN_MAP` (raising `ValueError` otherwise),
and map to the Spark join kind. -/
def sparkJoinKind (how : String) : Except FugueError String :=
  let h := normalizeHow how
  match _TO_SPARK_JOIN_MAP.find? (fun p : String × String => p.1 = h) with
  | Option.some p => .ok p.2
  | Option.none => .error (.valueError (h ++ " is not supported as a join type"))

/-- The backend call `join` hands to Spark on success: `d1.crossJoin(d2)`
for the cross kind, `d1.join(d2, on=keys, how=kind)` otherwise. -/
inductive JoinBackendCall where
  | crossJoin
  | joinWith (how : String)
deriving DecidableEq, Repr

/-- The join-kind path of `SparkExecutionEngine.join`: the backend is
invoked only after the kind check succeeds; an unrecognized kind raises
`ValueError` in this layer and no backend join runs. -/
def SparkExecutionEngine.join (how : String) :
    Except FugueError JoinBackendCall :=
  match sparkJoinKind how with
  | .ok k => if k = "cross" then .ok .crossJoin else .ok (.joinWith k)
  | .error e => .error e

/-- Two join-kind strings that differ only by letter case, underscores and
spaces: character-wise case changes (`caseChar`) and insertion or removal of
`'_'` or `' '` on either side (`skipLeft`/`skipRight`). -/
inductive HowEquiv : List Char → List Char → Prop where
  | nil : HowEquiv [] []
  | caseChar (c1 c2 : Char) (h : Char.toLower c1 = Char.toLower c2)
      (t1 t2 : List Char) (ht : HowEquiv t1 t2) : HowEquiv (c1 :: t1) (c2 :: t2)
  | skipLeft (c : Char) (h : c = '_' ∨ c = ' ') (t1 t2 : List Char)
      (ht : HowEquiv t1 t2) : HowEquiv (c :: t1) t2
  | skipRight (c : Char) (h : c = '_' ∨ c = ' ') (t1 t2 : List Char)
      (ht : HowEquiv t1 t2) : HowEquiv t1 (c :: t2)

/-! ## Partition-wise map: `_Mapper.run` and the pandas-UDF strategy -/

/-- `PartitionCursor` state: physical partition number, logical partition
and slice numbers, and the peeked first row of the current slice. -/
structure PartitionCursor (Row : Type) where
  physical_no : Nat
  partition_no : Nat
  slice_no : Nat
  row : Option Row

/-- Observable callback invocations inside a partition-wise map:
the on-init hook and the `map_func` calls. -/
inductive MapEvent where
  | onInitCall (no : Nat)
  | mapFuncCall (pn sn : Nat)
deriving DecidableEq, Repr

/-- The `_Mapper` object: output schema, whether the partition spec is
empty, the triad partitioner (external; it carves a physical partition into
`(partition_no, slice_no, rows)` slices), the map callback and whether an
on-init hook was supplied.  `map_func` returns the rows of the produced
local dataframe; events record which callbacks fire. -/
structure MapperModel (Row OutRow : Type) where
  output_schema : String
  spec_empty : Bool
  partitioner : List Row → List (Nat × Nat × List Row)
  map_func : PartitionCursor Row → List Row → List OutRow
  has_on_init : Bool

/-- `_Mapper.run(no, rows)`: returns immediately on an empty partition;
otherwise fires on-init once (if supplied), slices the partition (a single
`(0, 0, df)` slice when the spec is empty, else via the partitioner), and
for each slice sets the cursor to `(peek, pn, sn)` and yields the rows
produced by `map_func`. -/
def MapperModel.run {Row OutRow : Type} (m : MapperModel Row OutRow)
    (no : Nat) (rows : List Row) : List OutRow × List MapEvent :=
  if rows.isEmpty then ([], [])
  else
    let initEvents := if m.has_on_init then [MapEvent.onInitCall no] else []
    let partitions := if m.spec_empty then [(0, 0, rows)] else m.partitioner rows
    let step := partitions.map fun q =>
      (m.map_func { physical_no := no, partition_no := q.1, slice_no := q.2.1,
                    row := q.2.2.head? } q.2.2,
       MapEvent.mapFuncCall q.1 q.2.1)
    ((step.map Prod.fst).flatten, initEvents ++ step.map Prod.snd)

/-- The result of the row-stream `map` path: the mapped rows and the schema
attached by `self.to_df(sdf, output_schema, metadata)`. -/
structure MappedDF (OutRow : Type) where
  rows : List OutRow
  schema : String

/-- The row-stream strategy of `SparkExecutionEngine.map`:
`df.native.rdd.mapPartitionsWithIndex(mapper.run)` over the physical
partitions, wrapped into a dataframe carrying the declared output schema. -/
def sparkMapRowStream {Row OutRow : Type} (m : MapperModel Row OutRow)
    (partitions : List (Nat × List Row)) : MappedDF OutRow × List MapEvent :=
  let rs := partitions.map fun q => m.run q.1 q.2
  ({ rows := (rs.map Prod.fst).flatten, schema := m.output_schema },
   (rs.map Prod.snd).flatten)

/-- The `_udf` closure of `SparkExecutionEngine._map_by_pandas_udf`:
presort keys/directions, the pandas `sort_values` call (external, kept as a
parameter), the map callback, and whether an on-init hook was supplied
(wrapped in `RunOnce`; at most one group fires it, and an empty group never
does). -/
structure PandasUdfModel (Row OutRow : Type) where
  output_schema : String
  presort_keys : List String
  sortValues : List Row → List Row
  map_func : PartitionCursor Row → List Row → List OutRow
  has_on_init : Bool

/-- `_udf(pdf)`: an empty group short-circuits to
`PandasDataFrame([], output_schema)` — zero rows, declared schema, no
callbacks; otherwise the group is presorted, on-init fires for logical
partition `0`, the cursor is set to `(peek, 0, 0)` and `map_func` produces
the output rows.  The returned schema is the one `pandas_udf` declares from
`output_schema`. -/
def PandasUdfModel.udf {Row OutRow : Type} (u : PandasUdfModel Row OutRow)
    (pdf : List Row) : MappedDF OutRow × List MapEvent :=
  if pdf.length = 0 then ({ rows := [], schema := u.output_schema }, [])
  else
    let pdf := if u.presort_keys.length > 0 then u.sortValues pdf else pdf
    let initEvents := if u.has_on_init then [MapEvent.onInitCall 0] else []
    let cursor : PartitionCursor Row :=
      { physical_no := 0, partition_no := 0, slice_no := 0, row := pdf.head? }
    ({ rows := u.map_func cursor pdf, schema := u.output_schema },
     initEvents ++ [MapEvent.mapFuncCall 0 0])

/-! ## fugue_sql.parse: `_to_cased_code` -/

/-- An ANTLR token's character span in the source text: `start` and `stop`
are the inclusive indices used by `_to_cased_code` (`code[t.start:t.stop+1]`). -/
structure TokenSpan where
  start : Nat
  stop : Nat
deriving DecidableEq, Repr

/-- The keyword-token spans a successful parse produces.  The lexer and
parser (`fugue_sql.antlr`, generated code outside `src/`) deliver the
terminal tokens in source order with disjoint in-bounds spans; `spansWF`
states exactly that, relative to a lower bound for the next admissible
start position. -/
def spansWF (len : Nat) : Nat → List TokenSpan → Bool
  | _, [] => true
  | start, t :: ts =>
      decide (start ≤ t.start) && decide (t.start ≤ t.stop) &&
      decide (t.stop < len) && spansWF len (t.stop + 1) ts

/-- Whether position `i` lies inside one of the keyword-token spans. -/
def inKeywordSpan (tokens : List TokenSpan) (i : Nat) : Bool :=
  tokens.any (fun t => t.start ≤ i && i ≤ t.stop)

/-- The loop body of `_to_cased_code`: with `start` the index after the last
copied character, for each keyword token append the untouched slice
`code[start:t.start]` (when nonempty), then the uppercased slice
`code[t.start:t.stop+1]`, and finally the remaining `code[start:]`.
Python's `str.upper()` is character-wise on the ASCII keyword spans. -/
def casedLoop (code : List Char) : Nat → List TokenSpan → List Char
  | start, [] => code.drop start
  | start, t :: ts =>
      (code.drop start).take (t.start - start)
        ++ ((code.drop t.start).take (t.stop + 1 - t.start)).map Char.toUpper
        ++ casedLoop code (t.stop + 1) ts

/-- `_to_cased_code(code, rule)`, with the keyword tokens of the successful
parse of `code.upper()` supplied as `tokens`. -/
def _to_cased_code (code : List Char) (tokens : List TokenSpan) : List Char :=
  casedLoop code 0 tokens

/-! ## Theorems -/

/-- C1: two `FugueTask` objects constructed with identical configuration,
input/output specs, metadata, determinism flag, laziness flag, structural
position and post-processing hints (persist, broadcast, checkpoint) have
equal `__uuid__` identities. -/
theorem c1_identity_deterministic (t1 t2 : FugueTask)
    (hc : t1.configs = t2.configs) (hi : t1.inputs = t2.inputs)
    (ho : t1.outputs = t2.outputs) (hm : t1.metadata = t2.metadata)
    (hd : t1.deterministic = t2.deterministic) (hl : t1.lazy = t2.lazy)
    (hn : t1.node_spec = t2.node_spec) (hp : t1._persist = t2._persist)
    (hb : t1._broadcast = t2._broadcast) (hk : t1._checkpoint = t2._checkpoint)
    (hns : t1._checkpoint_namespace = t2._checkpoint_namespace) :
    t1.__uuid__ = t2.__uuid__ := by
  simp [FugueTask.__uuid__, hc, hi, ho, hm, hd, hl, hn, hp, hb, hk, hns]

/-- Witness for C1 at two sample tasks constructed with identical
arguments. -/
theorem c1_witness : sampleTask.__uuid__ = sampleTask2.__uuid__ :=
  c1_identity_deterministic sampleTask sampleTask2
    rfl rfl rfl rfl rfl rfl rfl rfl rfl rfl rfl

/-- C2 counterexample: calling `persist("None")` on a fresh task mutates
the persist hint (from `None` to the string `"None"`) but leaves
`__uuid__` unchanged, because the hash uses `str(self._persist)` and
`str(None) == "None" == str("None")`. -/
theorem c2_counterexample :
    (sampleTask.persist (PyVal.str "None"))._persist ≠ sampleTask._persist ∧
    (sampleTask.persist (PyVal.str "None")).__uuid__ = sampleTask.__uuid__ :=
  ⟨by decide, rfl⟩

/-- C2 amended: a `persist` mutation changes `__uuid__` exactly when the
`str` image of the stored hint changes (so persisting with the string
`"None"` over the unset hint is the one silent case); `broadcast()` changes
`__uuid__` exactly when the flag was unset; `checkpoint(ns)` changes
`__uuid__` exactly when the flag was unset or the namespace's `str` image
changes. -/
theorem c2_amended :
    (∀ (t : FugueTask) (level : PyVal),
      ((t.persist level).__uuid__ = t.__uuid__ ↔
        (if level = PyVal.none then PyVal.str "" else level).pyStr =
          t._persist.pyStr)) ∧
    (∀ t : FugueTask, (t.broadcast.__uuid__ = t.__uuid__ ↔ t._broadcast = true)) ∧
    (∀ (t : FugueTask) (ns : Option PyVal),
      ((t.checkpoint ns).__uuid__ = t.__uuid__ ↔
        (t._checkpoint = true ∧ ns.map PyVal.pyStr = t._checkpoint_namespace))) := by
  refine ⟨fun t level => ?_, fun t => ?_, fun t ns => ?_⟩
  · simp [FugueTask.__uuid__, to_uuid, FugueTask.persist]
  · simp [FugueTask.__uuid__, to_uuid, FugueTask.broadcast]
  · cases ns with
    | none =>
        cases hcn : t._checkpoint_namespace <;>
          simp [FugueTask.__uuid__, to_uuid, FugueTask.checkpoint,
            encodeNamespace, hcn]
    | some v =>
        cases hcn : t._checkpoint_namespace <;>
          simp [FugueTask.__uuid__, to_uuid, FugueTask.checkpoint,
            encodeNamespace, hcn]

/-- C7: constructing an `Output` task with zero inputs fails with the
arity error `FugueWorkflowError("must have at least one input")` (the
spec's ConfigurationError/InvalidConfiguration category). -/
theorem c7_output_zero_inputs (outputter params pre_p : UuidVal)
    (d l : Bool) (names : Option (List String)) :
    Output.init 0 outputter params pre_p d l names =
      .error (.fugueWorkflowError "must have at least one input") := rfl

/-- C8: every copying path on a constructed task — `copy()`, shallow copy
via `__copy__`, deep copy via `__deepcopy__` — fails with
`InvalidOperationError("can't copy")` (the spec's UnsupportedOperation
category); no copying path succeeds. -/
theorem c8_noncopyable (t : FugueTask) (memo : UuidVal) :
    t.copy = .error (.invalidOperationError "can't copy") ∧
    t.__copy__ = .error (.invalidOperationError "can't copy") ∧
    t.__deepcopy__ memo = .error (.invalidOperationError "can't copy") :=
  ⟨rfl, rfl, rfl⟩

/-- C5: under the row-stream strategy (`_Mapper.run`) an empty physical
partition fires no on-init and no map callback and yields zero rows, the
overall row-stream result carries the declared output schema, and under
the vectorized pandas-UDF strategy (`_udf`) an empty group fires no
callbacks and yields zero rows with the declared output schema. -/
theorem c5_empty_partition {Row OutRow : Type} (m : MapperModel Row OutRow)
    (u : PandasUdfModel Row OutRow) (no : Nat)
    (parts : List (Nat × List Row)) :
    m.run no [] = ([], []) ∧
    (sparkMapRowStream m parts).1.schema = m.output_schema ∧
    u.udf [] = ({ rows := [], schema := u.output_schema }, []) :=
  ⟨rfl, rfl, rfl⟩

/-- C3 counterexample: an `Output` task with its persist hint and broadcast
flag both set still executes without any engine persist/broadcast call and
without any result-cache store: its trace is exactly engine lookup,
outputter invocation and the dummy publish, and the run's result cache is
left untouched — refuting the claim that every role's `execute` applies
persist then broadcast, stores the result, and publishes it. -/
theorem c3_counterexample :
    (Output.execute sampleOutputTask 7 ⟨[("_0", DFv.input 1)], []⟩ ⟨[]⟩) =
      (⟨[("_0", DFv.input 1)], [("_0", DFv.arrayDF [] "_0:int")]⟩, ⟨[]⟩,
       [ExecEvent.getExecutionEngine, ExecEvent.outputterProcess false,
        ExecEvent.setOutput "_0"]) ∧
    sampleOutputTask.base._persist ≠ PyVal.none ∧
    sampleOutputTask.base._broadcast = true :=
  ⟨rfl, by decide, by decide⟩

/-- C3 amended: `Create.execute` and `Process.execute` obtain the engine,
perform the role action, apply persist then broadcast in that fixed order
(both on the dataframe and in the event trace), store the final dataframe
in the run's result cache keyed by this task instance, and publish it on
the single output slot `"_0"`; `Output.execute` obtains the engine and
invokes the outputter for its side effect only, then publishes the dummy
`ArrayDataFrame([], "_0:int")` without persist/broadcast post-processing
and without a result-cache store. -/
theorem c3_amended :
    (∀ (t : CreateTask) (taskId : Nat) (ctx : TaskContext) (wf : WorkflowCtx),
      Create.execute t taskId ctx wf =
        ({ ctx with outputs := ctx.outputs ++
            [("_0",
              (if t.base._broadcast then DFv.broadcasted else id)
                ((if t.base._persist = PyVal.none then id else DFv.persisted)
                  DFv.created))] },
         { wf with results := wf.results ++
            [(taskId,
              (if t.base._broadcast then DFv.broadcasted else id)
                ((if t.base._persist = PyVal.none then id else DFv.persisted)
                  DFv.created))] },
         [ExecEvent.getExecutionEngine, ExecEvent.creatorCreate] ++
           (if t.base._persist = PyVal.none then []
            else [ExecEvent.enginePersist
              (if t.base._persist = PyVal.str "" then PyVal.none
               else t.base._persist)]) ++
           (if t.base._broadcast then [ExecEvent.engineBroadcast] else []) ++
           [ExecEvent.setResult taskId, ExecEvent.setOutput "_0"])) ∧
    (∀ (t : ProcessTask) (taskId : Nat) (ctx : TaskContext) (wf : WorkflowCtx),
      Process.execute t taskId ctx wf =
        ({ ctx with outputs := ctx.outputs ++
            [("_0",
              (if t.base._broadcast then DFv.broadcasted else id)
                ((if t.base._persist = PyVal.none then id else DFv.persisted)
                  (DFv.processed t.base._input_has_key (ctx.inputs.map Prod.snd))))] },
         { wf with results := wf.results ++
            [(taskId,
              (if t.base._broadcast then DFv.broadcasted else id)
                ((if t.base._persist = PyVal.none then id else DFv.persisted)
                  (DFv.processed t.base._input_has_key (ctx.inputs.map Prod.snd))))] },
         [ExecEvent.getExecutionEngine,
           ExecEvent.processorProcess t.base._input_has_key] ++
           (if t.base._persist = PyVal.none then []
            else [ExecEvent.enginePersist
              (if t.base._persist = PyVal.str "" then PyVal.none
               else t.base._persist)]) ++
           (if t.base._broadcast then [ExecEvent.engineBroadcast] else []) ++
           [ExecEvent.setResult taskId, ExecEvent.setOutput "_0"])) ∧
    (∀ (t : OutputTask) (taskId : Nat) (ctx : TaskContext) (wf : WorkflowCtx),
      Output.execute t taskId ctx wf =
        ({ ctx with outputs := ctx.outputs ++ [("_0", DFv.arrayDF [] "_0:int")] },
         wf,
         [ExecEvent.getExecutionEngine,
          ExecEvent.outputterProcess t.base._input_has_key,
          ExecEvent.setOutput "_0"])) := by
  refine ⟨fun t taskId ctx wf => ?_, fun t taskId ctx wf => ?_,
    fun t taskId ctx wf => rfl⟩
  · by_cases hp : t.base._persist = PyVal.none <;>
      by_cases hb : t.base._broadcast <;>
        simp [Create.execute, FugueTask.handle_persist,
          FugueTask.handle_broadcast, hp, hb]
  · by_cases hp : t.base._persist = PyVal.none <;>
      by_cases hb : t.base._broadcast <;>
        simp [Process.execute, FugueTask.handle_persist,
          FugueTask.handle_broadcast, hp, hb]

/-- The second `RunOnce` lookup finds the entry stored by the first miss. -/
theorem lookupCache_append_self (c : List (Nat × SparkDF)) (k : Nat) (v : SparkDF)
    (h : lookupCache c k = Option.none) :
    lookupCache (c ++ [(k, v)]) k = Option.some v := by
  unfold lookupCache at h ⊢
  cases hf : c.find? (fun p => p.1 = k) with
  | some p => simp [hf] at h
  | none =>
      rw [List.find?_append, hf]
      simp

/-- On an accepted level, `_persist` issues exactly one backend
`df.native.persist()` call with no storage-level argument and returns the
same dataframe; the resulting state does not depend on which accepted
level was requested. -/
theorem persist_accepted (df : SparkDF) (level : PersistLevel) (s : EngineState)
    (h : acceptedPersistLevel level = true) :
    SparkExecutionEngine._persist df level s =
      .ok (df, { s with persistCalls := s.persistCalls + 1,
                        nativePersistArgs := s.nativePersistArgs ++ [Option.none] }) := by
  cases level with
  | noLevel => rfl
  | level l => rfl
  | str name =>
      simp only [acceptedPersistLevel] at h
      cases hf : storageLevelDict.find? (fun p : String × StorageLevel => p.1 = name) with
      | some p => simp [SparkExecutionEngine._persist, hf]
      | none => rw [hf] at h; simp at h

/-- C4 counterexample: for a non-native dataframe instance, `to_df` wraps
the input into a fresh `SparkDataFrame` on every call, so the `RunOnce`
key (the converted object's id) differs between the two calls and the
underlying `_broadcast` runs twice — refuting "exactly once" for "every
dataframe instance". -/
theorem c4_counterexample :
    ((SparkExecutionEngine.broadcast (AnyDF.other 5)
        (SparkExecutionEngine.broadcast (AnyDF.other 5) initEngineState).2).2).broadcastCalls
      = 2 := rfl

/-- C4 amended: for an engine-native (`SparkDataFrame`) instance whose id
is not yet cached, invoking `broadcast`, `persist` or `register` twice on
it within one run triggers the underlying backend action exactly once,
and the second call returns the memoized result keyed by the input
dataframe's object identity. -/
theorem c4_amended :
    (∀ (d : SparkDF) (s : EngineState),
      lookupCache s.broadcastCache d.objId = Option.none →
      ((SparkExecutionEngine.broadcast (AnyDF.spark d)
          (SparkExecutionEngine.broadcast (AnyDF.spark d) s).2).2.broadcastCalls
          = s.broadcastCalls + 1 ∧
       (SparkExecutionEngine.broadcast (AnyDF.spark d)
          (SparkExecutionEngine.broadcast (AnyDF.spark d) s).2).1
          = (SparkExecutionEngine.broadcast (AnyDF.spark d) s).1)) ∧
    (∀ (d : SparkDF) (level : PersistLevel) (s : EngineState),
      lookupCache s.persistCache d.objId = Option.none →
      acceptedPersistLevel level = true →
      ∃ r1 s1, SparkExecutionEngine.persist (AnyDF.spark d) level s = .ok (r1, s1) ∧
        SparkExecutionEngine.persist (AnyDF.spark d) level s1 = .ok (r1, s1) ∧
        s1.persistCalls = s.persistCalls + 1) ∧
    (∀ (d : SparkDF) (name : String) (s : EngineState),
      lookupCache s.registerCache d.objId = Option.none →
      ((SparkExecutionEngine.register (AnyDF.spark d) name
          (SparkExecutionEngine.register (AnyDF.spark d) name s).2).2.registerCalls
          = s.registerCalls + 1 ∧
       (SparkExecutionEngine.register (AnyDF.spark d) name
          (SparkExecutionEngine.register (AnyDF.spark d) name s).2).1
          = (SparkExecutionEngine.register (AnyDF.spark d) name s).1)) := by
  refine ⟨?_, ?_, ?_⟩
  · intro d s h
    unfold SparkExecutionEngine.broadcast SparkExecutionEngine.to_df
    simp only []
    rw [h]
    simp only [SparkExecutionEngine._broadcast]
    rw [lookupCache_append_self _ _ _ h]
    simp
  · intro d level s h hacc
    refine ⟨d, ({ s with persistCalls := s.persistCalls + 1, nativePersistArgs := s.nativePersistArgs ++ [Option.none], persistCache := s.persistCache ++ [(d.objId, d)] } : EngineState), ?_, ?_, rfl⟩
    · unfold SparkExecutionEngine.persist SparkExecutionEngine.to_df
      simp only []
      rw [h, persist_accepted _ _ _ hacc]
    · unfold SparkExecutionEngine.persist SparkExecutionEngine.to_df
      simp only []
      rw [lookupCache_append_self _ _ _ h]
  · intro d name s h
    unfold SparkExecutionEngine.register SparkExecutionEngine.to_df
    simp only []
    rw [h]
    simp only [SparkExecutionEngine._register]
    rw [lookupCache_append_self _ _ _ h]
    simp

/-- Witness for the amended C4 at a concrete native dataframe and the fresh
engine state. -/
theorem c4_witness :
    (((SparkExecutionEngine.broadcast (AnyDF.spark ⟨1⟩)
        (SparkExecutionEngine.broadcast (AnyDF.spark ⟨1⟩) initEngineState).2).2.broadcastCalls
        = initEngineState.broadcastCalls + 1 ∧
      (SparkExecutionEngine.broadcast (AnyDF.spark ⟨1⟩)
        (SparkExecutionEngine.broadcast (AnyDF.spark ⟨1⟩) initEngineState).2).1
        = (SparkExecutionEngine.broadcast (AnyDF.spark ⟨1⟩) initEngineState).1)) ∧
    (∃ r1 s1, SparkExecutionEngine.persist (AnyDF.spark ⟨1⟩) PersistLevel.noLevel
        initEngineState = .ok (r1, s1) ∧
      SparkExecutionEngine.persist (AnyDF.spark ⟨1⟩) PersistLevel.noLevel s1 = .ok (r1, s1) ∧
      s1.persistCalls = initEngineState.persistCalls + 1) ∧
    ((SparkExecutionEngine.register (AnyDF.spark ⟨1⟩) "v"
        (SparkExecutionEngine.register (AnyDF.spark ⟨1⟩) "v" initEngineState).2).2.registerCalls
        = initEngineState.registerCalls + 1 ∧
     (SparkExecutionEngine.register (AnyDF.spark ⟨1⟩) "v"
        (SparkExecutionEngine.register (AnyDF.spark ⟨1⟩) "v" initEngineState).2).1
        = (SparkExecutionEngine.register (AnyDF.spark ⟨1⟩) "v" initEngineState).1) :=
  ⟨c4_amended.1 ⟨1⟩ initEngineState rfl,
   c4_amended.2.1 ⟨1⟩ PersistLevel.noLevel initEngineState rfl rfl,
   c4_amended.2.2 ⟨1⟩ "v" initEngineState rfl⟩

/-- C9: for every accepted persist level — `None`, a `StorageLevel` value,
or a valid `StorageLevel` name string — `_persist` issues the backend
`df.native.persist()` call with no storage-level argument and returns the
input dataframe; the resulting engine state is identical for all accepted
levels, so the requested level is validated and logged but never reaches
the backend. -/
theorem c9_persist_level_not_passed (df : SparkDF) (level : PersistLevel)
    (s : EngineState) (h : acceptedPersistLevel level = true) :
    SparkExecutionEngine._persist df level s =
      .ok (df, { s with persistCalls := s.persistCalls + 1,
                        nativePersistArgs := s.nativePersistArgs ++ [Option.none] }) :=
  persist_accepted df level s h

/-- Witness for C9 at a concrete valid storage-level name. -/
theorem c9_witness :
    SparkExecutionEngine._persist ⟨3⟩ (PersistLevel.str "MEMORY_ONLY") initEngineState =
      .ok (⟨3⟩, { initEngineState with
                  persistCalls := initEngineState.persistCalls + 1,
                  nativePersistArgs := initEngineState.nativePersistArgs ++ [Option.none] }) :=
  c9_persist_level_not_passed ⟨3⟩ (PersistLevel.str "MEMORY_ONLY") initEngineState (by decide)

/-- One normalization step of `how.lower().replace("_", "").replace(" ", "")`
on a leading character. -/
theorem normChars_cons (c : Char) (t : List Char) :
    pyRemoveChar (pyRemoveChar (pyLower (c :: t)) '_') ' ' =
      if Char.toLower c = '_' ∨ Char.toLower c = ' '
      then pyRemoveChar (pyRemoveChar (pyLower t) '_') ' '
      else Char.toLower c :: pyRemoveChar (pyRemoveChar (pyLower t) '_') ' ' := by
  by_cases h1 : Char.toLower c = '_'
  · simp [pyLower, pyRemoveChar, List.filter_cons, h1]
  · by_cases h2 : Char.toLower c = ' '
    · simp [pyLower, pyRemoveChar, List.filter_cons, h1, h2]
    · simp [pyLower, pyRemoveChar, List.filter_cons, h1, h2]

/-- Strings that differ only by case, underscores and spaces normalize to
the same character sequence. -/
theorem howEquiv_norm {l1 l2 : List Char} (h : HowEquiv l1 l2) :
    pyRemoveChar (pyRemoveChar (pyLower l1) '_') ' ' =
      pyRemoveChar (pyRemoveChar (pyLower l2) '_') ' ' := by
  induction h with
  | nil => rfl
  | caseChar c1 c2 hc t1 t2 ht ih => rw [normChars_cons, normChars_cons, hc, ih]
  | skipLeft c hc t1 t2 ht ih =>
      have hcond : Char.toLower c = '_' ∨ Char.toLower c = ' ' := by
        rcases hc with h | h <;> subst h
        · exact Or.inl (by decide)
        · exact Or.inr (by decide)
      rw [normChars_cons, if_pos hcond]
      exact ih
  | skipRight c hc t1 t2 ht ih =>
      have hcond : Char.toLower c = '_' ∨ Char.toLower c = ' ' := by
        rcases hc with h | h <;> subst h
        · exact Or.inl (by decide)
        · exact Or.inr (by decide)
      rw [normChars_cons, if_pos hcond]
      exact ih

/-- C6: any two join-kind strings differing only by underscores, spaces or
letter case resolve to the identical backend join kind (or the identical
error), and any string whose normalization is outside the
`_TO_SPARK_JOIN_MAP` allow-list makes `join` fail fast with `ValueError`
(the spec's ConfigurationError category) in this layer — no backend join
call is produced. -/
theorem c6_join_normalization :
    (∀ s1 s2 : String, HowEquiv s1.toList s2.toList →
      SparkExecutionEngine.join s1 = SparkExecutionEngine.join s2) ∧
    (∀ s : String,
      (_TO_SPARK_JOIN_MAP.find? (fun p : String × String => p.1 = normalizeHow s)).isNone
        = true →
      SparkExecutionEngine.join s =
        .error (.valueError (normalizeHow s ++ " is not supported as a join type"))) := by
  constructor
  · intro s1 s2 h
    have hn : normalizeHow s1 = normalizeHow s2 := by
      simpa [normalizeHow] using congrArg String.mk (howEquiv_norm h)
    simp [SparkExecutionEngine.join, sparkJoinKind, hn]
  · intro s h
    rw [Option.isNone_iff_eq_none] at h
    simp [SparkExecutionEngine.join, sparkJoinKind, h]

/-- Witness for C6: `"leftouter"` and `"left_outer"` resolve identically,
and `"bogus"` fails fast. -/
theorem c6_witness :
    SparkExecutionEngine.join "leftouter" = SparkExecutionEngine.join "left_outer" ∧
    SparkExecutionEngine.join "bogus" =
      .error (.valueError (normalizeHow "bogus" ++ " is not supported as a join type")) := by
  refine ⟨c6_join_normalization.1 "leftouter" "left_outer" ?_, c6_join_normalization.2 "bogus" (by decide)⟩
  show HowEquiv ['l','e','f','t','o','u','t','e','r']
      ['l','e','f','t','_','o','u','t','e','r']
  apply HowEquiv.caseChar 'l' 'l' rfl
  apply HowEquiv.caseChar 'e' 'e' rfl
  apply HowEquiv.caseChar 'f' 'f' rfl
  apply HowEquiv.caseChar 't' 't' rfl
  apply HowEquiv.skipRight '_' (Or.inl rfl)
  apply HowEquiv.caseChar 'o' 'o' rfl
  apply HowEquiv.caseChar 'u' 'u' rfl
  apply HowEquiv.caseChar 't' 't' rfl
  apply HowEquiv.caseChar 'e' 'e' rfl
  apply HowEquiv.caseChar 'r' 'r' rfl
  exact HowEquiv.nil

/-- The cased-code loop preserves the remaining length whenever the token
spans are in-order, disjoint and in bounds. -/
theorem casedLoop_length (code : List Char) (ts : List TokenSpan) :
    ∀ (start : Nat), spansWF code.length start ts = true →
      (casedLoop code start ts).length = code.length - start := by
  induction ts with
  | nil => intro start _; simp [casedLoop]
  | cons t ts ih =>
      intro start h
      simp only [spansWF, Bool.and_eq_true, decide_eq_true_eq] at h
      obtain ⟨⟨⟨h1, h2⟩, h3⟩, h4⟩ := h
      simp only [casedLoop, List.length_append, List.length_map,
        List.length_take, List.length_drop]
      rw [ih (t.stop + 1) h4]
      omega

/-- Positions strictly before the admissible start of a well-formed span
list lie in no span. -/
theorem not_inKeywordSpan_of_lt (ts : List TokenSpan) (len : Nat) :
    ∀ (s i : Nat), spansWF len s ts = true → i < s →
      inKeywordSpan ts i = false := by
  induction ts with
  | nil => intro s i _ _; rfl
  | cons t ts ih =>
      intro s i h hi
      simp only [spansWF, Bool.and_eq_true, decide_eq_true_eq] at h
      obtain ⟨⟨⟨h1, h2⟩, h3⟩, h4⟩ := h
      simp only [inKeywordSpan, List.any_cons, Bool.or_eq_false_iff,
        Bool.and_eq_false_iff, decide_eq_false_iff_not, Nat.not_le]
      constructor
      · left; omega
      · exact ih (t.stop + 1) i h4 (by omega)

/-- Character-level characterization of the cased-code loop: position
`start + j` of the output is the input character, uppercased exactly when
it lies in a keyword-token span. -/
theorem casedLoop_getElem (code : List Char) (ts : List TokenSpan) :
    ∀ (start j : Nat), spansWF code.length start ts = true →
      (casedLoop code start ts)[j]? =
        (code[start + j]?).map
          (fun c => if inKeywordSpan ts (start + j) then c.toUpper else c) := by
  induction ts with
  | nil =>
      intro start j _
      simp only [casedLoop, List.getElem?_drop, inKeywordSpan, List.any_nil,
        if_neg Bool.false_ne_true]
      exact Option.map_id'.symm
  | cons t ts ih =>
      intro start j h
      simp only [spansWF, Bool.and_eq_true, decide_eq_true_eq] at h
      obtain ⟨⟨⟨h1, h2⟩, h3⟩, h4⟩ := h
      have hA : ((code.drop start).take (t.start - start)).length = t.start - start := by
        simp only [List.length_take, List.length_drop]
        omega
      have hB : (((code.drop t.start).take (t.stop + 1 - t.start)).map Char.toUpper).length
          = t.stop + 1 - t.start := by
        simp only [List.length_map, List.length_take, List.length_drop]
        omega
      simp only [casedLoop, List.append_assoc, List.getElem?_append]
      rw [hA]
      by_cases hj1 : j < t.start - start
      · rw [if_pos hj1]
        have hspan : inKeywordSpan (t :: ts) (start + j) = false := by
          simp only [inKeywordSpan, List.any_cons, Bool.or_eq_false_iff,
            Bool.and_eq_false_iff, decide_eq_false_iff_not, Nat.not_le]
          exact ⟨Or.inl (by omega),
            not_inKeywordSpan_of_lt ts code.length (t.stop + 1) (start + j) h4 (by omega)⟩
        rw [hspan]
        simp only [List.getElem?_take, if_pos hj1, List.getElem?_drop,
          if_neg Bool.false_ne_true]
        exact Option.map_id'.symm
      · rw [if_neg hj1]
        rw [hB]
        by_cases hj2 : j - (t.start - start) < t.stop + 1 - t.start
        · rw [if_pos hj2]
          have hspan : inKeywordSpan (t :: ts) (start + j) = true := by
            simp only [inKeywordSpan, List.any_cons, Bool.or_eq_true,
              Bool.and_eq_true, decide_eq_true_eq]
            exact Or.inl ⟨by omega, by omega⟩
          rw [hspan]
          rw [List.getElem?_map]
          simp only [List.getElem?_take, if_pos hj2, List.getElem?_drop]
          have hidx : t.start + (j - (t.start - start)) = start + j := by omega
          rw [hidx]
          cases code[start + j]? with
          | none => rfl
          | some c => simp
        · rw [if_neg hj2]
          have := ih (t.stop + 1) (j - (t.start - start) - (t.stop + 1 - t.start)) h4
          rw [this]
          have hidx : t.stop + 1 + (j - (t.start - start) - (t.stop + 1 - t.start))
              = start + j := by omega
          rw [hidx]
          have hspan : inKeywordSpan (t :: ts) (start + j)
              = inKeywordSpan ts (start + j) := by
            simp only [inKeywordSpan, List.any_cons]
            have : decide (start + j ≤ t.stop) = false := by
              simp only [decide_eq_false_iff_not, Nat.not_le]
              omega
            rw [this]
            simp
          rw [hspan]

/-- C10: on a successfully parsed input (token spans in source order,
disjoint and in bounds), `_to_cased_code` returns a string of the same
length as the input in which exactly the characters inside keyword-token
spans are uppercased and every character outside those spans is preserved
unchanged. -/
theorem c10_to_cased_code (code : List Char) (tokens : List TokenSpan)
    (h : spansWF code.length 0 tokens = true) :
    (_to_cased_code code tokens).length = code.length ∧
    ∀ i : Nat, (_to_cased_code code tokens)[i]? =
      (code[i]?).map
        (fun c => if inKeywordSpan tokens i then c.toUpper else c) := by
  constructor
  · simpa [_to_cased_code] using casedLoop_length code tokens 0 h
  · intro i
    simpa [_to_cased_code] using casedLoop_getElem code tokens 0 i h

/-- Witness for C10 on a concrete query with two keyword spans. -/
theorem c10_witness :
    (_to_cased_code "select a from tbl".toList [⟨0, 5⟩, ⟨9, 12⟩]).length
      = "select a from tbl".toList.length ∧
    (_to_cased_code "select a from tbl".toList [⟨0, 5⟩, ⟨9, 12⟩])[0]? =
      ("select a from tbl".toList[0]?).map
        (fun c => if inKeywordSpan [⟨0, 5⟩, ⟨9, 12⟩] 0 then c.toUpper else c) :=
  ⟨(c10_to_cased_code "select a from tbl".toList [⟨0, 5⟩, ⟨9, 12⟩] (by decide)).1,
   (c10_to_cased_code "select a from tbl".toList [⟨0, 5⟩, ⟨9, 12⟩] (by decide)).2 0⟩
